import Mathlib

/-!
Verification of the load-time behavior of the ga4gh.vr package entry
point (src/ga4gh/vr/Dunder-init file). The module body is embedded as a
pure function of an external environment: the outcome of the
distribution-metadata lookup, the file path of the module, and the
success or failure of the three internal re-export imports. The
function returns the ordered trace of observable load events together
with either the resulting module namespace or the propagated error.
-/

namespace GA4GHVR

/-- Values bound in the module namespace: the export list, version
strings, and opaque imported objects identified by their origin. -/
inductive Value where
  | strList : List String → Value
  | str : String → Value
  | obj : String → Value
  deriving DecidableEq, Repr

/-- A module namespace: bindings in insertion order, as in a Python
dict, restricted to the entries created by the module body itself. -/
abbrev Namespace := List (String × Value)

/-- Outcome of the get_distribution metadata lookup for the package
name: the distribution is present with some version string, absent
so that DistributionNotFound is raised, or the lookup raises some
other exception. -/
inductive MetadataResult where
  | found : String → MetadataResult
  | distributionNotFound : MetadataResult
  | otherError : String → MetadataResult
  deriving DecidableEq, Repr

/-- Errors that can escape module initialization. The futureWarning
constructor exists so that the statement that the commented-out rename
warning never fires is not vacuous. -/
inductive PyError where
  | importError : String → PyError
  | other : String → PyError
  | futureWarning : String → PyError
  deriving DecidableEq, Repr

/-- Observable events during module initialization, in execution
order: the metadata lookup, the del statement removing the two helper
names, and each attempted internal-module import. -/
inductive Event where
  | metadataLookup : Event
  | delHelpers : Event
  | importModule : String → Event
  deriving DecidableEq, Repr

/-- External environment the module body depends on: the metadata
lookup outcome, the value of the dunder file attribute, and whether
each of the three internal module imports succeeds. -/
structure LoadEnv where
  metadata : MetadataResult
  filePath : String
  enderefOk : Bool
  modelsOk : Bool
  normalizeOk : Bool
  deriving DecidableEq, Repr

/-- Assignment in a module namespace: overwrite in place if the name
is already bound, otherwise append (dict insertion order). -/
def bindName (ns : Namespace) (k : String) (v : Value) : Namespace :=
  if ns.any (fun q => q.1 == k) then
    ns.map (fun q => if q.1 == k then (k, v) else q)
  else ns ++ [(k, v)]

/-- Deletion of a binding, as performed by the del statement. -/
def delName (ns : Namespace) (k : String) : Namespace :=
  ns.filter (fun q => q.1 != k)

/-- Attribute lookup in the module namespace. -/
def lookupName (ns : Namespace) (k : String) : Option Value :=
  (ns.find? (fun q => q.1 == k)).map (fun q => q.2)

/-- Helper for pySplit: accumulate the current word in reverse while
walking the character list, emitting a word at each whitespace run. -/
def wordsAux : List Char → List Char → List String
  | [], [] => []
  | [], acc => [String.mk acc.reverse]
  | c :: cs, acc =>
      if c.isWhitespace then
        match acc with
        | [] => wordsAux cs []
        | _ => String.mk acc.reverse :: wordsAux cs []
      else wordsAux cs (c :: acc)

/-- Python str.split with no argument: split on runs of whitespace,
discarding empty pieces. -/
def pySplit (s : String) : List String := wordsAux s.data []

/-- The right-hand side of the export-list assignment in the source:
the literal string of five whitespace-separated names, split. -/
def allNames : List String :=
  pySplit "models normalize schema_path vr_deref vr_enref"

/-- The names bound by the three re-export import statements of the
source, in binding order. -/
def reexportedNames : List String :=
  ["vr_deref", "vr_enref", "models", "schema_path", "normalize"]

/-- Load-time execution of the module body, as a function of the
external environment. Faithful to the source order: bind the export
list, import the two pkg_resources helpers, skip the commented-out
rename check, resolve the version inside try with the
DistributionNotFound fallback to the string unknown, delete the two
helpers in the finally clause, then perform the three re-export
re-export imports, each of which propagates its failure. -/
def loadModule (env : LoadEnv) : List Event × Except PyError Namespace :=
  let ns := bindName [] "__all__" (Value.strList allNames)
  let ns := bindName ns "get_distribution" (Value.obj "pkg_resources.get_distribution")
  let ns := bindName ns "DistributionNotFound" (Value.obj "pkg_resources.DistributionNotFound")
  -- the rename check against the file path is commented out in the
  -- source, so no code runs between the helper import and the try block
  let tryResult : Except PyError Namespace :=
    match env.metadata with
    | MetadataResult.found v =>
        Except.ok (bindName ns "__version__" (Value.str v))
    | MetadataResult.distributionNotFound =>
        Except.ok (bindName ns "__version__" (Value.str "unknown"))
    | MetadataResult.otherError msg =>
        Except.error (PyError.other msg)
  match tryResult with
  | Except.error e =>
      -- the finally clause still deletes the helpers, but the failed
      -- module leaves no observable namespace behind
      ([Event.metadataLookup, Event.delHelpers], Except.error e)
  | Except.ok ns1 =>
    let ns2 := delName (delName ns1 "get_distribution") "DistributionNotFound"
    if env.enderefOk then
      let ns3 := bindName
        (bindName ns2 "vr_deref" (Value.obj "ga4gh.vr._internal.enderef.vr_deref"))
        "vr_enref" (Value.obj "ga4gh.vr._internal.enderef.vr_enref")
      if env.modelsOk then
        let ns4 := bindName
          (bindName ns3 "models" (Value.obj "ga4gh.vr._internal.models.models"))
          "schema_path" (Value.obj "ga4gh.vr._internal.models.schema_path")
        if env.normalizeOk then
          ([Event.metadataLookup, Event.delHelpers,
            Event.importModule "ga4gh.vr._internal.enderef",
            Event.importModule "ga4gh.vr._internal.models",
            Event.importModule "ga4gh.vr.normalize"],
           Except.ok (bindName ns4 "normalize" (Value.obj "ga4gh.vr.normalize.normalize")))
        else
          ([Event.metadataLookup, Event.delHelpers,
            Event.importModule "ga4gh.vr._internal.enderef",
            Event.importModule "ga4gh.vr._internal.models",
            Event.importModule "ga4gh.vr.normalize"],
           Except.error (PyError.importError "ga4gh.vr.normalize"))
      else
        ([Event.metadataLookup, Event.delHelpers,
          Event.importModule "ga4gh.vr._internal.enderef",
          Event.importModule "ga4gh.vr._internal.models"],
         Except.error (PyError.importError "ga4gh.vr._internal.models"))
    else
      ([Event.metadataLookup, Event.delHelpers,
        Event.importModule "ga4gh.vr._internal.enderef"],
       Except.error (PyError.importError "ga4gh.vr._internal.enderef"))

/-- The module namespace produced by a fully successful load whose
resolved version string is v. -/
def successNamespace (v : String) : Namespace :=
  [("__all__", Value.strList allNames),
   ("__version__", Value.str v),
   ("vr_deref", Value.obj "ga4gh.vr._internal.enderef.vr_deref"),
   ("vr_enref", Value.obj "ga4gh.vr._internal.enderef.vr_enref"),
   ("models", Value.obj "ga4gh.vr._internal.models.models"),
   ("schema_path", Value.obj "ga4gh.vr._internal.models.schema_path"),
   ("normalize", Value.obj "ga4gh.vr.normalize.normalize")]

/-- The event trace of a fully successful load. -/
def fullTrace : List Event :=
  [Event.metadataLookup, Event.delHelpers,
   Event.importModule "ga4gh.vr._internal.enderef",
   Event.importModule "ga4gh.vr._internal.models",
   Event.importModule "ga4gh.vr.normalize"]

/-- Process state for the import system: the cached module namespace,
if the package has already been loaded, as in sys.modules. -/
structure Process where
  modulesCache : Option Namespace
  deriving DecidableEq, Repr

/-- An import statement at process level: a cached module is returned
with no events and no re-execution of the module body; otherwise the
module body runs and, on success, the namespace is cached. -/
def importPackage (p : Process) (env : LoadEnv) :
    Process × List Event × Except PyError Namespace :=
  match p.modulesCache with
  | some ns => (p, ([], Except.ok ns))
  | none =>
    match loadModule env with
    | (evs, Except.ok ns) => (⟨some ns⟩, (evs, Except.ok ns))
    | (evs, Except.error e) => (p, (evs, Except.error e))

theorem allNames_eq :
    allNames = ["models", "normalize", "schema_path", "vr_deref", "vr_enref"] := by
  decide

theorem loadModule_found_eq (v p : String) :
    loadModule ⟨MetadataResult.found v, p, true, true, true⟩ =
      (fullTrace, Except.ok (successNamespace v)) := rfl

theorem loadModule_dnf_eq (p : String) :
    loadModule ⟨MetadataResult.distributionNotFound, p, true, true, true⟩ =
      (fullTrace, Except.ok (successNamespace "unknown")) := rfl

theorem loadModule_otherError_eq (m p : String) (b1 b2 b3 : Bool) :
    loadModule ⟨MetadataResult.otherError m, p, b1, b2, b3⟩ =
      ([Event.metadataLookup, Event.delHelpers], Except.error (PyError.other m)) := rfl

theorem loadModule_found_enderef_fail (v p : String) (b2 b3 : Bool) :
    loadModule ⟨MetadataResult.found v, p, false, b2, b3⟩ =
      ([Event.metadataLookup, Event.delHelpers,
        Event.importModule "ga4gh.vr._internal.enderef"],
       Except.error (PyError.importError "ga4gh.vr._internal.enderef")) := rfl

theorem loadModule_dnf_enderef_fail (p : String) (b2 b3 : Bool) :
    loadModule ⟨MetadataResult.distributionNotFound, p, false, b2, b3⟩ =
      ([Event.metadataLookup, Event.delHelpers,
        Event.importModule "ga4gh.vr._internal.enderef"],
       Except.error (PyError.importError "ga4gh.vr._internal.enderef")) := rfl

theorem loadModule_found_models_fail (v p : String) (b3 : Bool) :
    loadModule ⟨MetadataResult.found v, p, true, false, b3⟩ =
      ([Event.metadataLookup, Event.delHelpers,
        Event.importModule "ga4gh.vr._internal.enderef",
        Event.importModule "ga4gh.vr._internal.models"],
       Except.error (PyError.importError "ga4gh.vr._internal.models")) := rfl

theorem loadModule_dnf_models_fail (p : String) (b3 : Bool) :
    loadModule ⟨MetadataResult.distributionNotFound, p, true, false, b3⟩ =
      ([Event.metadataLookup, Event.delHelpers,
        Event.importModule "ga4gh.vr._internal.enderef",
        Event.importModule "ga4gh.vr._internal.models"],
       Except.error (PyError.importError "ga4gh.vr._internal.models")) := rfl

theorem loadModule_found_normalize_fail (v p : String) :
    loadModule ⟨MetadataResult.found v, p, true, true, false⟩ =
      ([Event.metadataLookup, Event.delHelpers,
        Event.importModule "ga4gh.vr._internal.enderef",
        Event.importModule "ga4gh.vr._internal.models",
        Event.importModule "ga4gh.vr.normalize"],
       Except.error (PyError.importError "ga4gh.vr.normalize")) := rfl

theorem loadModule_dnf_normalize_fail (p : String) :
    loadModule ⟨MetadataResult.distributionNotFound, p, true, true, false⟩ =
      ([Event.metadataLookup, Event.delHelpers,
        Event.importModule "ga4gh.vr._internal.enderef",
        Event.importModule "ga4gh.vr._internal.models",
        Event.importModule "ga4gh.vr.normalize"],
       Except.error (PyError.importError "ga4gh.vr.normalize")) := rfl

theorem ok_pair_of_snd (env : LoadEnv) (ns : Namespace)
    (h : (loadModule env).2 = Except.ok ns) :
    ∃ evs, loadModule env = (evs, Except.ok ns) := by
  rcases hE : loadModule env with ⟨evs, r⟩
  rw [hE] at h
  exact ⟨evs, congrArg (Prod.mk evs) h⟩

theorem loadModule_ok_shape (env : LoadEnv) (evs : List Event) (ns : Namespace)
    (h : loadModule env = (evs, Except.ok ns)) :
    ∃ v, evs = fullTrace ∧ ns = successNamespace v ∧
      (env.metadata = MetadataResult.found v ∨
        (env.metadata = MetadataResult.distributionNotFound ∧ v = "unknown")) := by
  obtain ⟨md, fp, b1, b2, b3⟩ := env
  cases md with
  | found v =>
      cases b1 with
      | false =>
          rw [loadModule_found_enderef_fail] at h
          injection h with h1 h2
          exact Except.noConfusion h2
      | true =>
          cases b2 with
          | false =>
              rw [loadModule_found_models_fail] at h
              injection h with h1 h2
              exact Except.noConfusion h2
          | true =>
              cases b3 with
              | false =>
                  rw [loadModule_found_normalize_fail] at h
                  injection h with h1 h2
                  exact Except.noConfusion h2
              | true =>
                  rw [loadModule_found_eq] at h
                  injection h with h1 h2
                  injection h2 with h3
                  exact ⟨v, h1.symm, h3.symm, Or.inl rfl⟩
  | distributionNotFound =>
      cases b1 with
      | false =>
          rw [loadModule_dnf_enderef_fail] at h
          injection h with h1 h2
          exact Except.noConfusion h2
      | true =>
          cases b2 with
          | false =>
              rw [loadModule_dnf_models_fail] at h
              injection h with h1 h2
              exact Except.noConfusion h2
          | true =>
              cases b3 with
              | false =>
                  rw [loadModule_dnf_normalize_fail] at h
                  injection h with h1 h2
                  exact Except.noConfusion h2
              | true =>
                  rw [loadModule_dnf_eq] at h
                  injection h with h1 h2
                  injection h2 with h3
                  exact ⟨"unknown", h1.symm, h3.symm, Or.inr ⟨rfl, rfl⟩⟩
  | otherError m =>
      rw [loadModule_otherError_eq] at h
      injection h with h1 h2
      exact Except.noConfusion h2

theorem loadModule_error_shape (env : LoadEnv) (e : PyError)
    (h : (loadModule env).2 = Except.error e) :
    (∃ m, e = PyError.other m) ∨ (∃ m, e = PyError.importError m) := by
  obtain ⟨md, fp, b1, b2, b3⟩ := env
  cases md with
  | found v =>
      cases b1 with
      | false =>
          rw [loadModule_found_enderef_fail] at h
          exact Or.inr ⟨_, (Except.error.inj h).symm⟩
      | true =>
          cases b2 with
          | false =>
              rw [loadModule_found_models_fail] at h
              exact Or.inr ⟨_, (Except.error.inj h).symm⟩
          | true =>
              cases b3 with
              | false =>
                  rw [loadModule_found_normalize_fail] at h
                  exact Or.inr ⟨_, (Except.error.inj h).symm⟩
              | true =>
                  rw [loadModule_found_eq] at h
                  exact Except.noConfusion h
  | distributionNotFound =>
      cases b1 with
      | false =>
          rw [loadModule_dnf_enderef_fail] at h
          exact Or.inr ⟨_, (Except.error.inj h).symm⟩
      | true =>
          cases b2 with
          | false =>
              rw [loadModule_dnf_models_fail] at h
              exact Or.inr ⟨_, (Except.error.inj h).symm⟩
          | true =>
              cases b3 with
              | false =>
                  rw [loadModule_dnf_normalize_fail] at h
                  exact Or.inr ⟨_, (Except.error.inj h).symm⟩
              | true =>
                  rw [loadModule_dnf_eq] at h
                  exact Except.noConfusion h
  | otherError m =>
      rw [loadModule_otherError_eq] at h
      exact Or.inl ⟨_, (Except.error.inj h).symm⟩

theorem mem_allNames_iff_reexported (n : String) :
    n ∈ allNames ↔ n ∈ reexportedNames := by
  rw [allNames_eq]
  simp only [reexportedNames, List.mem_cons, List.not_mem_nil, or_false]
  tauto

/-- C1: after a successful load, every name in the export list is
bound and accessible in the module namespace, and the set of
advertised names coincides exactly with the set of names bound by the
re-export imports. -/
theorem exports_match_bindings (env : LoadEnv) (ns : Namespace)
    (h : (loadModule env).2 = Except.ok ns) :
    (∀ n, n ∈ allNames → (lookupName ns n).isSome = true) ∧
    (∀ n, n ∈ allNames ↔ n ∈ reexportedNames) := by
  obtain ⟨evs, hE⟩ := ok_pair_of_snd env ns h
  obtain ⟨v, -, rfl, -⟩ := loadModule_ok_shape env evs ns hE
  refine ⟨?_, mem_allNames_iff_reexported⟩
  intro n hn
  rw [allNames_eq] at hn
  simp only [List.mem_cons, List.not_mem_nil, or_false] at hn
  rcases hn with rfl | rfl | rfl | rfl | rfl <;> rfl

theorem exports_match_bindings_witness :
    (∀ n, n ∈ allNames →
      (lookupName (successNamespace "0.6.2") n).isSome = true) ∧
    (∀ n, n ∈ allNames ↔ n ∈ reexportedNames) :=
  exports_match_bindings
    ⟨MetadataResult.found "0.6.2", "site-packages/ga4gh/vr/init.py",
     true, true, true⟩
    (successNamespace "0.6.2") rfl

/-- C2: when the metadata lookup raises DistributionNotFound, the
error is recovered locally: no metadata exception surfaces from the
load, loading continues into the first re-export import, and any
successful load binds the version attribute to the string unknown. -/
theorem dnf_recovered (env : LoadEnv)
    (hm : env.metadata = MetadataResult.distributionNotFound) :
    (∀ m, (loadModule env).2 ≠ Except.error (PyError.other m)) ∧
    Event.importModule "ga4gh.vr._internal.enderef" ∈ (loadModule env).1 ∧
    (∀ ns, (loadModule env).2 = Except.ok ns →
      lookupName ns "__version__" = some (Value.str "unknown")) := by
  obtain ⟨md, fp, b1, b2, b3⟩ := env
  have hmd : md = MetadataResult.distributionNotFound := hm
  subst hmd
  cases b1 with
  | false =>
      refine ⟨?_, ?_, ?_⟩
      · intro m hcon
        rw [loadModule_dnf_enderef_fail] at hcon
        exact PyError.noConfusion (Except.error.inj hcon)
      · rw [loadModule_dnf_enderef_fail]
        decide
      · intro ns hok
        rw [loadModule_dnf_enderef_fail] at hok
        exact Except.noConfusion hok
  | true =>
      cases b2 with
      | false =>
          refine ⟨?_, ?_, ?_⟩
          · intro m hcon
            rw [loadModule_dnf_models_fail] at hcon
            exact PyError.noConfusion (Except.error.inj hcon)
          · rw [loadModule_dnf_models_fail]
            decide
          · intro ns hok
            rw [loadModule_dnf_models_fail] at hok
            exact Except.noConfusion hok
      | true =>
          cases b3 with
          | false =>
              refine ⟨?_, ?_, ?_⟩
              · intro m hcon
                rw [loadModule_dnf_normalize_fail] at hcon
                exact PyError.noConfusion (Except.error.inj hcon)
              · rw [loadModule_dnf_normalize_fail]
                decide
              · intro ns hok
                rw [loadModule_dnf_normalize_fail] at hok
                exact Except.noConfusion hok
          | true =>
              refine ⟨?_, ?_, ?_⟩
              · intro m hcon
                rw [loadModule_dnf_eq] at hcon
                exact Except.noConfusion hcon
              · rw [loadModule_dnf_eq]
                decide
              · intro ns hok
                rw [loadModule_dnf_eq] at hok
                rw [← Except.ok.inj hok]
                rfl

theorem dnf_recovered_witness :
    (∀ m, (loadModule ⟨MetadataResult.distributionNotFound,
        "site-packages/ga4gh/vr/init.py", true, true, true⟩).2 ≠
      Except.error (PyError.other m)) ∧
    Event.importModule "ga4gh.vr._internal.enderef" ∈
      (loadModule ⟨MetadataResult.distributionNotFound,
        "site-packages/ga4gh/vr/init.py", true, true, true⟩).1 ∧
    (∀ ns, (loadModule ⟨MetadataResult.distributionNotFound,
        "site-packages/ga4gh/vr/init.py", true, true, true⟩).2 = Except.ok ns →
      lookupName ns "__version__" = some (Value.str "unknown")) :=
  dnf_recovered
    ⟨MetadataResult.distributionNotFound, "site-packages/ga4gh/vr/init.py",
     true, true, true⟩ rfl

/-- C3: after a successful load, the export list attribute holds
exactly the five names models, normalize, schema_path, vr_deref,
vr_enref, no more and no fewer, in a fixed insertion order. -/
theorem all_exactly_five (env : LoadEnv) (ns : Namespace)
    (h : (loadModule env).2 = Except.ok ns) :
    lookupName ns "__all__" =
      some (Value.strList
        ["models", "normalize", "schema_path", "vr_deref", "vr_enref"]) := by
  obtain ⟨evs, hE⟩ := ok_pair_of_snd env ns h
  obtain ⟨v, -, rfl, -⟩ := loadModule_ok_shape env evs ns hE
  rfl

theorem all_exactly_five_witness :
    lookupName (successNamespace "unknown") "__all__" =
      some (Value.strList
        ["models", "normalize", "schema_path", "vr_deref", "vr_enref"]) :=
  all_exactly_five
    ⟨MetadataResult.distributionNotFound, "lib/ga4gh/vr/init.py",
     true, true, true⟩
    (successNamespace "unknown") rfl

/-- C4: if the metadata lookup succeeds and reports version v, then
after a successful load the version attribute equals exactly v. -/
theorem version_matches_metadata (env : LoadEnv) (ns : Namespace) (v : String)
    (hm : env.metadata = MetadataResult.found v)
    (h : (loadModule env).2 = Except.ok ns) :
    lookupName ns "__version__" = some (Value.str v) := by
  obtain ⟨evs, hE⟩ := ok_pair_of_snd env ns h
  obtain ⟨v2, -, rfl, hcase⟩ := loadModule_ok_shape env evs ns hE
  rcases hcase with hf | ⟨hd, -⟩
  · rw [hm] at hf
    injection hf with hv
    subst hv
    rfl
  · rw [hm] at hd
    exact MetadataResult.noConfusion hd

theorem version_matches_metadata_witness :
    lookupName (successNamespace "1.2.3") "__version__" =
      some (Value.str "1.2.3") :=
  version_matches_metadata
    ⟨MetadataResult.found "1.2.3", "site-packages/ga4gh/vr/init.py",
     true, true, true⟩
    (successNamespace "1.2.3") "1.2.3" rfl rfl

/-- C5: if any of the three internal module imports fails, the whole
load fails with a propagated error and no namespace is produced: there
is no partial-success outcome. -/
theorem internal_import_failure_fatal (env : LoadEnv)
    (hfail : env.enderefOk = false ∨ env.modelsOk = false ∨
      env.normalizeOk = false) :
    ∃ e, (loadModule env).2 = Except.error e := by
  obtain ⟨md, fp, b1, b2, b3⟩ := env
  cases md with
  | otherError m =>
      exact ⟨PyError.other m, by rw [loadModule_otherError_eq]⟩
  | found v =>
      cases b1 with
      | false =>
          exact ⟨PyError.importError "ga4gh.vr._internal.enderef",
            by rw [loadModule_found_enderef_fail]⟩
      | true =>
          cases b2 with
          | false =>
              exact ⟨PyError.importError "ga4gh.vr._internal.models",
                by rw [loadModule_found_models_fail]⟩
          | true =>
              cases b3 with
              | false =>
                  exact ⟨PyError.importError "ga4gh.vr.normalize",
                    by rw [loadModule_found_normalize_fail]⟩
              | true => simp at hfail
  | distributionNotFound =>
      cases b1 with
      | false =>
          exact ⟨PyError.importError "ga4gh.vr._internal.enderef",
            by rw [loadModule_dnf_enderef_fail]⟩
      | true =>
          cases b2 with
          | false =>
              exact ⟨PyError.importError "ga4gh.vr._internal.models",
                by rw [loadModule_dnf_models_fail]⟩
          | true =>
              cases b3 with
              | false =>
                  exact ⟨PyError.importError "ga4gh.vr.normalize",
                    by rw [loadModule_dnf_normalize_fail]⟩
              | true => simp at hfail

theorem internal_import_failure_fatal_witness :
    ∃ e, (loadModule ⟨MetadataResult.found "0.6.2",
      "site-packages/ga4gh/vr/init.py", true, false, true⟩).2 =
        Except.error e :=
  internal_import_failure_fatal
    ⟨MetadataResult.found "0.6.2", "site-packages/ga4gh/vr/init.py",
     true, false, true⟩
    (Or.inr (Or.inl rfl))

/-- C6: the module body runs at most once per process: if a first
load from a fresh process succeeds, a second import in the same
process returns the identical cached namespace with an empty event
trace, so no re-lookup is observable, and the first load performed the
metadata lookup exactly once. -/
theorem import_twice_idempotent (env1 env2 : LoadEnv) (p1 : Process)
    (evs : List Event) (ns : Namespace)
    (h : importPackage ⟨none⟩ env1 = (p1, (evs, Except.ok ns))) :
    importPackage p1 env2 = (p1, ([], Except.ok ns)) ∧
    evs.count Event.metadataLookup = 1 := by
  rcases hL : loadModule env1 with ⟨evs0, r0⟩
  have h0 : importPackage ⟨none⟩ env1 =
      (match loadModule env1 with
       | (evs3, Except.ok ns3) =>
           ((⟨some ns3⟩ : Process), (evs3, Except.ok ns3))
       | (evs3, Except.error e) =>
           ((⟨none⟩ : Process), (evs3, Except.error e))) := rfl
  rw [hL] at h0
  cases r0 with
  | error e =>
      rw [h0] at h
      injection h with hp hrest
      injection hrest with hevs hr
      exact Except.noConfusion hr
  | ok ns0 =>
      rw [h0] at h
      injection h with hp hrest
      injection hrest with hevs hr
      have hns : ns0 = ns := Except.ok.inj hr
      subst hns
      subst hp
      subst hevs
      obtain ⟨v, hfull, -, -⟩ := loadModule_ok_shape env1 evs0 ns0 hL
      subst hfull
      exact ⟨rfl, by decide⟩

theorem import_twice_idempotent_witness :
    importPackage ⟨some (successNamespace "unknown")⟩
        ⟨MetadataResult.otherError "registry gone", "elsewhere/init.py",
         false, false, false⟩ =
      (⟨some (successNamespace "unknown")⟩,
       ([], Except.ok (successNamespace "unknown"))) ∧
    fullTrace.count Event.metadataLookup = 1 :=
  import_twice_idempotent
    ⟨MetadataResult.distributionNotFound, "site-packages/ga4gh/vr/init.py",
     true, true, true⟩
    ⟨MetadataResult.otherError "registry gone", "elsewhere/init.py",
     false, false, false⟩
    ⟨some (successNamespace "unknown")⟩ fullTrace
    (successNamespace "unknown") rfl

/-- C7 as stated fails: if the metadata lookup succeeds but reports an
empty version string, the load succeeds and binds the version
attribute to the empty string, whose length is zero. -/
theorem version_empty_counterexample :
    (loadModule ⟨MetadataResult.found "", "site-packages/ga4gh/vr/init.py",
        true, true, true⟩).2 = Except.ok (successNamespace "") ∧
    lookupName (successNamespace "") "__version__" = some (Value.str "") ∧
    ("" : String).length = 0 := ⟨rfl, rfl, rfl⟩

/-- C7 amended: after a successful load the version attribute is a
non-empty string provided any metadata-reported version is non-empty;
in particular the metadata-absent fallback yields the non-empty string
unknown. -/
theorem version_nonempty (env : LoadEnv) (ns : Namespace)
    (h : (loadModule env).2 = Except.ok ns)
    (hv : ∀ v, env.metadata = MetadataResult.found v → 1 ≤ v.length) :
    ∃ s, lookupName ns "__version__" = some (Value.str s) ∧ 1 ≤ s.length := by
  obtain ⟨evs, hE⟩ := ok_pair_of_snd env ns h
  obtain ⟨v, -, rfl, hcase⟩ := loadModule_ok_shape env evs ns hE
  rcases hcase with hf | ⟨-, rfl⟩
  · exact ⟨v, rfl, hv v hf⟩
  · exact ⟨"unknown", rfl, by decide⟩

theorem version_nonempty_witness :
    ∃ s, lookupName (successNamespace "unknown") "__version__" =
        some (Value.str s) ∧ 1 ≤ s.length :=
  version_nonempty
    ⟨MetadataResult.distributionNotFound, "vrs/ga4gh/vr/init.py",
     true, true, true⟩
    (successNamespace "unknown") rfl
    (fun _v hv => MetadataResult.noConfusion hv)

/-- C8: the commented-out rename check is inert: the load result does
not depend on the module file path, and no load ever fails with the
forward-compatibility FutureWarning about the package rename. -/
theorem rename_check_inert (env : LoadEnv) (p : String) (msg : String) :
    loadModule { env with filePath := p } = loadModule env ∧
    (loadModule env).2 ≠ Except.error (PyError.futureWarning msg) := by
  constructor
  · obtain ⟨md, fp, b1, b2, b3⟩ := env
    cases md <;> cases b1 <;> cases b2 <;> cases b3 <;> rfl
  · intro hcon
    rcases loadModule_error_shape env (PyError.futureWarning msg) hcon with
      ⟨m, hm⟩ | ⟨m, hm⟩ <;> exact PyError.noConfusion hm

/-- C9: only DistributionNotFound is recovered by the fallback: any
other exception from the metadata lookup propagates as the load
result, after the finally clause, regardless of the rest of the
environment. -/
theorem other_metadata_error_propagates (env : LoadEnv) (msg : String)
    (hm : env.metadata = MetadataResult.otherError msg) :
    loadModule env =
      ([Event.metadataLookup, Event.delHelpers],
       Except.error (PyError.other msg)) := by
  obtain ⟨md, fp, b1, b2, b3⟩ := env
  have hmd : md = MetadataResult.otherError msg := hm
  subst hmd
  exact loadModule_otherError_eq msg fp b1 b2 b3

theorem other_metadata_error_propagates_witness :
    loadModule ⟨MetadataResult.otherError "metadata corrupt",
        "site-packages/ga4gh/vr/init.py", true, true, true⟩ =
      ([Event.metadataLookup, Event.delHelpers],
       Except.error (PyError.other "metadata corrupt")) :=
  other_metadata_error_propagates
    ⟨MetadataResult.otherError "metadata corrupt",
     "site-packages/ga4gh/vr/init.py", true, true, true⟩
    "metadata corrupt" rfl

/-- C10: after a successful load the two pkg_resources helper names
are absent from the namespace, the entries created by the module body
are exactly the export list, the version attribute and the five
re-exports, and the event trace places the helper deletion strictly
before every re-export import. -/
theorem helpers_deleted (env : LoadEnv) (evs : List Event) (ns : Namespace)
    (h : loadModule env = (evs, Except.ok ns)) :
    lookupName ns "get_distribution" = none ∧
    lookupName ns "DistributionNotFound" = none ∧
    ns.map Prod.fst =
      ["__all__", "__version__", "vr_deref", "vr_enref",
       "models", "schema_path", "normalize"] ∧
    evs = [Event.metadataLookup, Event.delHelpers,
           Event.importModule "ga4gh.vr._internal.enderef",
           Event.importModule "ga4gh.vr._internal.models",
           Event.importModule "ga4gh.vr.normalize"] := by
  obtain ⟨_v, rfl, rfl, -⟩ := loadModule_ok_shape env evs ns h
  exact ⟨rfl, rfl, rfl, rfl⟩

theorem helpers_deleted_witness :
    lookupName (successNamespace "0.2.0") "get_distribution" = none ∧
    lookupName (successNamespace "0.2.0") "DistributionNotFound" = none ∧
    (successNamespace "0.2.0").map Prod.fst =
      ["__all__", "__version__", "vr_deref", "vr_enref",
       "models", "schema_path", "normalize"] ∧
    fullTrace = [Event.metadataLookup, Event.delHelpers,
           Event.importModule "ga4gh.vr._internal.enderef",
           Event.importModule "ga4gh.vr._internal.models",
           Event.importModule "ga4gh.vr.normalize"] :=
  helpers_deleted
    ⟨MetadataResult.found "0.2.0", "site-packages/ga4gh/vr/init.py",
     true, true, true⟩
    fullTrace (successNamespace "0.2.0") rfl

end GA4GHVR
